import Mathlib

/-!
Shallow embedding of the crittr media playback core
(`src/crittr/core/video.py` and `src/crittr/core/media_controller.py`).

Times (PTS, durations, fps estimates) are modelled as exact rationals `ℚ`.
The native ffpyplayer decoder is modelled as a stream (`List FrameItem`) of
`get_frame()` results; a native `seek` installs a new stream, which the
embedding takes as an explicit argument.  Timeouts become fuel parameters:
one unit of fuel is one iteration of the corresponding polling loop (each
real iteration consumes a bounded slice of the deadline).  Qt signal
emissions become explicit event lists.
-/

namespace Crittr

/-- Pixel payload delivered to the UI: row-major list of rows of byte values
(the `h × (3·w)` RGB24 matrix produced by `_img_to_numpy`). -/
abbrev Rgb := List (List Nat)

/-- Raw decoder image as handed back by ffpyplayer: declared width/height,
the first byte plane of `to_bytearray()`, and the optional `get_linesize()`
list (`none` models both a `None` result and a raising `get_linesize()`). -/
structure Img where
  w : Nat
  h : Nat
  plane0 : List Nat
  linesizes : Option (List Nat)
deriving DecidableEq

/-- Embedding of `VideoBackendFFPyPlayer._img_to_numpy`.

Source:
  stride = int(line_sizes[0]) if line_sizes else 3 * w
  if flat.size < h * stride: return None
  return flat.reshape(h, stride)[:, : 3 * w].reshape(h, w, 3)

`flat.reshape(h, stride)` raises ValueError unless `flat.size = h * stride`,
and the final `.reshape(h, w, 3)` raises unless the sliced size
`h * min stride (3*w)` equals `h * w * 3`; both exceptions are caught by the
surrounding `except` and turned into `None`. -/
def img_to_numpy (img : Img) : Option Rgb :=
  let stride : Nat :=
    match img.linesizes with
    | some (s :: _) => s
    | _ => 3 * img.w
  if img.plane0.length < img.h * stride then none
  else if img.plane0.length ≠ img.h * stride then none
  else if img.h * min stride (3 * img.w) ≠ img.h * (img.w * 3) then none
  else
    some ((List.range img.h).map fun r =>
      ((img.plane0.drop (r * stride)).take stride).take (3 * img.w))

/-- One result of `MediaPlayer.get_frame()`: end of stream (`val == 'eof'`),
no frame ready yet (`frame is None`), or a decoded frame carrying an image
and an optional PTS (ffpyplayer may report `pts = None`). -/
inductive FrameItem where
  | eof
  | noFrame
  | frame (img : Img) (pts : Option ℚ)
deriving DecidableEq

/-- State of one `VideoBackendFFPyPlayer`:
`running`/`paused` are `self._running`/`self._paused`, `playerPaused` is the
pause flag last pushed into ffpyplayer via `set_pause`, `exited` records
that the decode loop body has broken out of its `while`, `duration` is the
cached `self._duration`, `stream` the pending `get_frame()` results of the
primary decoder, `cvOpen` whether `self._cv_cap` is bound, and
`capOpenable` whether `cv2.VideoCapture(path)` would open. -/
structure Backend where
  running : Bool
  paused : Bool
  playerPaused : Bool
  exited : Bool
  duration : Option ℚ
  stream : List FrameItem
  cvOpen : Bool
  capOpenable : Bool
deriving DecidableEq

/-- Embedding of `VideoBackendFFPyPlayer._probe_duration_via_opencv`:
returns `frames / fps` when the capture opens and
`fps and fps > 0 and frames and frames > 0` (Python float truthiness is
`≠ 0`), else `None`. -/
def probe_duration_via_opencv (opened : Bool) (frames fps : ℚ) : Option ℚ :=
  if opened = false then none
  else if fps ≠ 0 ∧ 0 < fps ∧ frames ≠ 0 ∧ 0 < frames then some (frames / fps)
  else none

/-- Embedding of `VideoBackendFFPyPlayer.start` (without the thread spawn:
starting a fresh decode loop clears `exited`). -/
def Backend.start (b : Backend) : Backend :=
  if b.running then b
  else { b with running := true, paused := false, exited := false }

/-- Embedding of `VideoBackendFFPyPlayer.pause`: no-op unless running; sets
the thread gate and pushes `set_pause(True)` into the player. -/
def Backend.pause (b : Backend) : Backend :=
  if b.running = false then b
  else { b with paused := true, playerPaused := true }

/-- Embedding of `VideoBackendFFPyPlayer.resume`: no-op unless running. -/
def Backend.resume (b : Backend) : Backend :=
  if b.running = false then b
  else { b with paused := false, playerPaused := false }

/-- The bounded pull loop inside `seek_to_time`: consume `get_frame()`
results until a frame with PTS at or past the target arrives, end of
stream is hit, or the fuel (deadline) runs out; frames with `pts = None`
are skipped, and the last PTS-carrying frame seen is kept as fallback.
Returns the kept frame and the unconsumed remainder of the stream. -/
def seekPull (target : ℚ) :
    Nat → List FrameItem → Option (Img × ℚ) → Option (Img × ℚ) × List FrameItem
  | 0, s, last => (last, s)
  | _ + 1, [], last => (last, [])
  | _ + 1, FrameItem.eof :: rest, last => (last, rest)
  | fuel + 1, FrameItem.noFrame :: rest, last => seekPull target fuel rest last
  | fuel + 1, FrameItem.frame img pts :: rest, last =>
    match pts with
    | none => seekPull target fuel rest last
    | some p =>
      if target ≤ p then (some (img, p), rest)
      else seekPull target fuel rest (some (img, p))

/-- Embedding of `VideoBackendFFPyPlayer.seek_to_time`.  `postSeek` is the
stream the native `self._player.seek(target)` installs; `fuel` is the
`poster_timeout_ms` deadline in loop iterations.  The `finally` block
leaves the thread gate and the player pause flag at `paused` unless the
thread was running unpaused on entry, in which case `resume()` re-clears
both. -/
def Backend.seek_to_time (b : Backend) (seconds : ℚ)
    (postSeek : List FrameItem) (fuel : Nat) : Backend × Option (Rgb × ℚ) :=
  let target := max 0 seconds
  let wasPlaying := b.running && !b.paused
  let pulled := seekPull target fuel postSeek none
  let b2 : Backend :=
    { b with
      stream := pulled.2
      paused := !wasPlaying
      playerPaused := !wasPlaying }
  match pulled.1 with
  | none => (b2, none)
  | some (img, p) =>
    match img_to_numpy img with
    | none => (b2, none)
    | some arr => (b2, some (arr, p))

/-- Decidable test used to state the seek contract: does the stream deliver
a PTS-carrying frame at or after `target` within `fuel` pulls, before end
of stream? -/
def hasFrameAtOrAfter (target : ℚ) : Nat → List FrameItem → Bool
  | 0, _ => false
  | _ + 1, [] => false
  | _ + 1, FrameItem.eof :: _ => false
  | fuel + 1, FrameItem.noFrame :: rest => hasFrameAtOrAfter target fuel rest
  | fuel + 1, FrameItem.frame _ pts :: rest =>
    match pts with
    | none => hasFrameAtOrAfter target fuel rest
    | some p => if target ≤ p then true else hasFrameAtOrAfter target fuel rest

/-- Polling loop of the synchronous poster-frame fetch: return the first
decodable PTS-carrying frame, stopping early at end of stream, within the
fuel budget. -/
def posterPoll : Nat → List FrameItem → Option (Rgb × ℚ) × List FrameItem
  | 0, s => (none, s)
  | _ + 1, [] => (none, [])
  | _ + 1, FrameItem.eof :: rest => (none, rest)
  | fuel + 1, FrameItem.noFrame :: rest => posterPoll fuel rest
  | fuel + 1, FrameItem.frame img pts :: rest =>
    match img_to_numpy img, pts with
    | some arr, some p => (some (arr, p), rest)
    | _, _ => posterPoll fuel rest

/-- Modelled from the spec: the method `read_one_frame` is called by
`MediaController.open` and `PlayerWidget` but its definition is not among
the source files.  Per the spec it is synchronous, does not start the
background decode loop, and polls the decoder with short sleeps until a
frame arrives, end-of-stream is reached, or the timeout (here `fuel`
polls) elapses. -/
def Backend.read_one_frame (b : Backend) (fuel : Nat) :
    Backend × Option (Rgb × ℚ) :=
  let polled := posterPoll fuel b.stream
  ({ b with stream := polled.2 }, polled.1)

/-- One iteration of the decode loop `VideoBackendFFPyPlayer._loop`, run by
the decode thread: exit once `running` is cleared, idle while `paused`,
otherwise push `set_pause(False)`, pull one `get_frame()` result, emit
`ended` and break on eof, skip empty pulls and frames whose buffer fails
`_img_to_numpy`, and emit `float(pts or 0.0)` for delivered frames.
Returns the new state, the PTS emitted with `frame_ready` (if any), and
whether `ended` was emitted. -/
def Backend.loopIter (b : Backend) : Backend × Option ℚ × Bool :=
  if b.exited then (b, none, false)
  else if b.running = false then ({ b with exited := true }, none, false)
  else if b.paused then (b, none, false)
  else
    let b2 : Backend := { b with playerPaused := false }
    match b2.stream with
    | [] => (b2, none, false)
    | FrameItem.eof :: rest => ({ b2 with stream := rest, exited := true }, none, true)
    | FrameItem.noFrame :: rest => ({ b2 with stream := rest }, none, false)
    | FrameItem.frame img pts :: rest =>
      match img_to_numpy img with
      | none => ({ b2 with stream := rest }, none, false)
      | some _ => ({ b2 with stream := rest }, some (pts.getD 0), false)

/-- Actions interleaving the decode thread with the control thread: one
decode-loop iteration, or a `pause()` / `resume()` call (no seek). -/
inductive Act where
  | tick
  | pause
  | resume
deriving DecidableEq

/-- Run an interleaving of decode-loop iterations and pause/resume calls,
collecting the PTS values emitted by `frame_ready`. -/
def runTrace : Backend → List Act → Backend × List ℚ
  | b, [] => (b, [])
  | b, Act.pause :: rest => runTrace b.pause rest
  | b, Act.resume :: rest => runTrace b.resume rest
  | b, Act.tick :: rest =>
    let s := b.loopIter
    let t := runTrace s.1 rest
    (t.1, s.2.1.toList ++ t.2)

/-- The PTS values (after the loop's `float(pts or 0.0)` coercion) carried
by the frame items of a stream, in stream order. -/
def streamPts : List FrameItem → List ℚ
  | [] => []
  | FrameItem.frame _ pts :: rest => pts.getD 0 :: streamPts rest
  | FrameItem.eof :: rest => streamPts rest
  | FrameItem.noFrame :: rest => streamPts rest

/-- Embedding of `VideoBackendFFPyPlayer.get_preview_frame_at`: lazily
binds the OpenCV capture (failing softly when it cannot open) and returns
whatever the capture read yields; `fetched` is the oracle for that read
(already colour-converted), with `none` covering read failures and
exceptions. -/
def Backend.get_preview_frame_at (b : Backend) (_seconds : ℚ)
    (fetched : Option Rgb) : Backend × Option Rgb :=
  if b.cvOpen = false then
    if b.capOpenable = false then (b, none)
    else ({ b with cvOpen := true }, fetched)
  else (b, fetched)

/-- Qt signals of `MediaController`, recorded in emission order. -/
inductive Ev where
  | timeChanged (t : ℚ)
  | durationChanged (d : ℚ)
  | frameReady (rgb : Rgb) (t : ℚ)
  | ended
deriving DecidableEq

/-- State of one `MediaController`: the bound backend (if any) plus the
canonical model fields `pts_s`, `duration_s`, `duration_known`, `fps_est`
and the controller-side `is_playing` flag. -/
structure MCState where
  backend : Option Backend
  pts_s : ℚ
  duration_s : ℚ
  duration_known : Bool
  fps_est : ℚ
  is_playing : Bool
deriving DecidableEq

/-- The EMA weight `self._ema_alpha = 0.1`. -/
def emaAlpha : ℚ := 1 / 10

/-- Embedding of `MediaController._publish_frame`: clamp the PTS at zero,
store it as canonical `pts_s`, then emit `timeChanged` followed by
`frameReady`, both carrying the stored value. -/
def MCState.publish_frame (st : MCState) (rgb : Rgb) (pts : ℚ) :
    MCState × List Ev :=
  let p := max 0 pts
  ({ st with pts_s := p }, [Ev.timeChanged p, Ev.frameReady rgb p])

/-- Embedding of `MediaController._on_backend_frame`: update `fps_est` by
the EMA over the delta between the incoming PTS and the previously
recorded `pts_s` (floored at `1e-6`), then publish the frame. -/
def MCState.on_backend_frame (st : MCState) (rgb : Rgb) (pts : ℚ) :
    MCState × List Ev :=
  let dt := max (1 / 1000000) (pts - st.pts_s)
  let st2 := { st with fps_est := (1 - emaAlpha) * st.fps_est + emaAlpha * (1 / dt) }
  st2.publish_frame rgb pts

/-- Embedding of `MediaController._on_backend_ended`. -/
def MCState.on_backend_ended (st : MCState) : MCState × List Ev :=
  ({ st with is_playing := false }, [Ev.ended])

/-- Inputs to `MediaController.open` that come from outside the embedded
code: whether `VideoBackendFFPyPlayer.__init__` succeeds (ffpyplayer
present and `MediaPlayer(path)` does not raise), the metadata duration (if
readable), whether the OpenCV capture opens, its `CAP_PROP_FRAME_COUNT`
and `CAP_PROP_FPS` properties, and the fresh player's frame stream. -/
structure OpenEnv where
  playerOk : Bool
  mdDuration : Option ℚ
  capOpened : Bool
  capFrames : ℚ
  capFps : ℚ
  stream : List FrameItem
deriving DecidableEq

/-- Embedding of `VideoBackendFFPyPlayer.__init__`: `none` when the
constructor raises (an `OpenFailure`); otherwise the fresh backend with
its cached duration — the metadata value when present, else the OpenCV
probe accepted only when `probed and 0 < probed < 24 * 60 * 60`
(truthiness of `probed` being subsumed by `0 < probed`).
`initialDuration` is the duration-caching part of the constructor body;
`mkBackend` is the whole constructor. -/
def initialDuration (env : OpenEnv) : Option ℚ :=
  match env.mdDuration with
  | some d => some d
  | none =>
    match probe_duration_via_opencv env.capOpened env.capFrames env.capFps with
    | some probed =>
      if 0 < probed ∧ probed < 24 * 60 * 60 then some probed else none
    | none => none

def mkBackend (env : OpenEnv) : Option Backend :=
  if env.playerOk = false then none
  else
    some
      { running := false, paused := false, playerPaused := false,
        exited := false, duration := initialDuration env, stream := env.stream,
        cvOpen := false, capOpenable := env.capOpened }

/-- Embedding of `MediaController.open`: close and drop any bound backend,
construct the new one (a constructor failure propagates, leaving the
model fields untouched and emitting nothing; the Bool result records
success), reset `pts_s`, `is_playing`, `fps_est`, adopt the duration when
`dur is not None and dur > 0` (emitting `durationChanged`), then attempt
the short-timeout poster fetch via `read_one_frame` and publish it when a
frame arrived. -/
def MCState.openMedia (st : MCState) (env : OpenEnv) (posterFuel : Nat) :
    MCState × List Ev × Bool :=
  let st1 := { st with backend := none }
  match mkBackend env with
  | none => (st1, [], false)
  | some b =>
    let st2 := { st1 with backend := some b, pts_s := 0, is_playing := false, fps_est := 24 }
    let durPair : MCState × List Ev :=
      match b.duration with
      | some d =>
        if 0 < d then
          ({ st2 with duration_s := d, duration_known := true }, [Ev.durationChanged d])
        else ({ st2 with duration_s := 0, duration_known := false }, [])
      | none => ({ st2 with duration_s := 0, duration_known := false }, [])
    let poll := b.read_one_frame posterFuel
    let st3 := { durPair.1 with backend := some poll.1 }
    match poll.2 with
    | some (arr, p) =>
      let pub := st3.publish_frame arr p
      (pub.1, durPair.2 ++ pub.2, true)
    | none => (st3, durPair.2, true)

/-- Embedding of `MediaController.play`. -/
def MCState.play (st : MCState) : MCState :=
  match st.backend with
  | none => st
  | some b =>
    if st.is_playing then st
    else
      let b2 := if b.running then b.resume else b.start
      { st with backend := some b2, is_playing := true }

/-- Embedding of `MediaController.pause`. -/
def MCState.pause (st : MCState) : MCState :=
  match st.backend with
  | none => st
  | some b =>
    if st.is_playing = false then st
    else { st with backend := some b.pause, is_playing := false }

/-- Embedding of `MediaController.seek_to_time`: delegate to the backend
seek with the target clamped at zero; on success publish the frame and
clear `is_playing`; on a `None` result change nothing visible. -/
def MCState.seek_to_time (st : MCState) (pts : ℚ)
    (postSeek : List FrameItem) (fuel : Nat) :
    MCState × List Ev × Option (Rgb × ℚ) :=
  match st.backend with
  | none => (st, [], none)
  | some b =>
    let r := b.seek_to_time (max 0 pts) postSeek fuel
    let st2 := { st with backend := some r.1 }
    match r.2 with
    | some (arr, p) =>
      let pub := st2.publish_frame arr p
      ({ pub.1 with is_playing := false }, pub.2, some (arr, p))
    | none => (st2, [], none)

/-- Embedding of `MediaController.preview_frame_at`: delegate to the
backend preview (exceptions collapsed into `none`); when a frame comes
back, emit only `frameReady`, carrying the requested `pts_s` argument. -/
def MCState.preview_frame_at (st : MCState) (pts : ℚ) (fetched : Option Rgb) :
    MCState × List Ev × Option Rgb :=
  match st.backend with
  | none => (st, [], none)
  | some b =>
    let r := b.get_preview_frame_at (max 0 pts) fetched
    let st2 := { st with backend := some r.1 }
    match r.2 with
    | some rgb => (st2, [Ev.frameReady rgb pts], some rgb)
    | none => (st2, [], none)

/-! Concrete fixtures used to instantiate the theorems below. -/

/-- A well-formed 1×1 RGB24 image: three bytes, default stride. -/
def goodImg : Img :=
  { w := 1, h := 1, plane0 := [10, 20, 30], linesizes := none }

/-- A malformed 1×1 image: empty byte plane, so `_img_to_numpy` fails. -/
def badImg : Img :=
  { w := 1, h := 1, plane0 := [], linesizes := none }

/-- An idle backend with an exhausted stream. -/
def b0 : Backend :=
  { running := false, paused := false, playerPaused := false, exited := false,
    duration := none, stream := [], cvOpen := false, capOpenable := false }

/-- A backend whose decode thread is running unpaused on a two-frame
monotone stream. -/
def bRun : Backend :=
  { running := true, paused := false, playerPaused := false, exited := false,
    duration := none,
    stream := [FrameItem.frame goodImg (some 1), FrameItem.frame goodImg (some 2)],
    cvOpen := false, capOpenable := false }

/-- A controller bound to `b0`, currently playing at pts 5. -/
def st0 : MCState :=
  { backend := some b0, pts_s := 5, duration_s := 7, duration_known := true,
    fps_est := 24, is_playing := true }

/-- An open environment that fails backend construction. -/
def envFail : OpenEnv :=
  { playerOk := false, mdDuration := none, capOpened := false,
    capFrames := 0, capFps := 0, stream := [] }

/-- A successful open environment: no metadata duration, capture opens but
reports zero frames, one decodable frame in the stream. -/
def envOk : OpenEnv :=
  { playerOk := true, mdDuration := none, capOpened := true,
    capFrames := 0, capFps := 1,
    stream := [FrameItem.frame goodImg (some 0)] }

/-- The backend `mkBackend envOk` constructs. -/
def bFresh : Backend :=
  { running := false, paused := false, playerPaused := false, exited := false,
    duration := none, stream := [FrameItem.frame goodImg (some 0)],
    cvOpen := false, capOpenable := true }

/-! Helper lemmas shared by the claim theorems. -/

/-- Inversion for a successful backend construction. -/
lemma mkBackend_some (env : OpenEnv) (b : Backend) (hmk : mkBackend env = some b) :
    b = { running := false, paused := false, playerPaused := false,
          exited := false, duration := initialDuration env,
          stream := env.stream, cvOpen := false, capOpenable := env.capOpened } := by
  unfold mkBackend at hmk
  split at hmk
  · exact absurd hmk (by simp)
  · exact (Option.some.inj hmk).symm

/-- With `playerOk`, construction yields exactly the fresh backend record. -/
lemma mkBackend_ok (env : OpenEnv) (hok : env.playerOk = true) :
    mkBackend env =
      some { running := false, paused := false, playerPaused := false,
             exited := false, duration := initialDuration env,
             stream := env.stream, cvOpen := false, capOpenable := env.capOpened } := by
  simp [mkBackend, hok]

/-- A successful `openMedia` resets `fps_est` to 24, clears `is_playing`,
and reports success, whatever the duration result and poster outcome. -/
lemma openMedia_model_reset (st : MCState) (env : OpenEnv) (pf : Nat) (b : Backend)
    (hmk : mkBackend env = some b) :
    (st.openMedia env pf).1.fps_est = 24 ∧
    (st.openMedia env pf).1.is_playing = false ∧
    (st.openMedia env pf).2.2 = true := by
  simp only [MCState.openMedia, hmk]
  rcases hd : b.duration with _ | d
  · rcases hp : (b.read_one_frame pf).2 with _ | ⟨arr, p⟩ <;>
      simp [hd, hp, MCState.publish_frame]
  · rcases hp : (b.read_one_frame pf).2 with _ | ⟨arr, p⟩ <;>
      by_cases h0 : 0 < d <;>
      simp [hd, hp, h0, MCState.publish_frame]

/-- The duration fields a successful `openMedia` ends with, as a function
of the backend constructor's cached duration. -/
lemma openMedia_duration_fields (st : MCState) (env : OpenEnv) (pf : Nat) (b : Backend)
    (hmk : mkBackend env = some b) :
    ((st.openMedia env pf).1.duration_known, (st.openMedia env pf).1.duration_s) =
      (match b.duration with
       | some d => if 0 < d then (true, d) else (false, 0)
       | none => (false, (0 : ℚ))) := by
  simp only [MCState.openMedia, hmk]
  rcases hd : b.duration with _ | d
  · rcases hp : (b.read_one_frame pf).2 with _ | ⟨arr, p⟩ <;>
      simp [hd, hp, MCState.publish_frame]
  · rcases hp : (b.read_one_frame pf).2 with _ | ⟨arr, p⟩ <;>
      by_cases h0 : 0 < d <;>
      simp [hd, hp, h0, MCState.publish_frame]

/-- The backend state coming out of `seek_to_time` is the same on every
result path: stream advanced, thread gate and player pause flag left at
the negation of the recorded was-playing bit. -/
lemma seek_to_time_fst (b : Backend) (s : ℚ) (ps : List FrameItem) (fuel : Nat) :
    (b.seek_to_time s ps fuel).1 =
      { b with stream := (seekPull (max 0 s) fuel ps none).2,
               paused := !(b.running && !b.paused),
               playerPaused := !(b.running && !b.paused) } := by
  unfold Backend.seek_to_time
  rcases hp : (seekPull (max 0 s) fuel ps none).1 with _ | ⟨img, q⟩
  · simp [hp]
  · rcases hi : img_to_numpy img with _ | arr <;> simp [hp, hi]

/-! Claim theorems. -/

/-- C8: whenever the controller publishes a frame received from the engine
(all frame deliveries — decode-loop frames via `_on_backend_frame`, poster
frames and seek results — go through `_publish_frame`), it emits
`timeChanged` carrying the new canonical pts immediately before
`frameReady` carrying the same pts. -/
theorem time_changed_before_frame_ready (st : MCState) (rgb : Rgb) (pts : ℚ) :
    (st.publish_frame rgb pts).2 =
      [Ev.timeChanged (max 0 pts), Ev.frameReady rgb (max 0 pts)] ∧
    (st.on_backend_frame rgb pts).2 =
      [Ev.timeChanged (max 0 pts), Ev.frameReady rgb (max 0 pts)] :=
  ⟨rfl, rfl⟩

/-- C9: `preview_frame_at` leaves every canonical field (`pts_s`,
`duration_s`, `duration_known`, `fps_est`, `is_playing`) unchanged and
emits at most a `frameReady` event — never `timeChanged` — whether the
underlying preview succeeds, fails, or raises (`fetched = none` covers
failure and exceptions). -/
theorem preview_leaves_canonical_state (st : MCState) (t : ℚ) (fetched : Option Rgb) :
    ((st.preview_frame_at t fetched).1.pts_s = st.pts_s ∧
     (st.preview_frame_at t fetched).1.duration_s = st.duration_s ∧
     (st.preview_frame_at t fetched).1.duration_known = st.duration_known ∧
     (st.preview_frame_at t fetched).1.fps_est = st.fps_est ∧
     (st.preview_frame_at t fetched).1.is_playing = st.is_playing) ∧
    ((st.preview_frame_at t fetched).2.1 = [] ∨
      ∃ rgb, (st.preview_frame_at t fetched).2.1 = [Ev.frameReady rgb t]) := by
  rcases hb : st.backend with _ | b
  · simp [MCState.preview_frame_at, hb]
  · rcases hr : (b.get_preview_frame_at (max 0 t) fetched).2 with _ | rgb <;>
      simp [MCState.preview_frame_at, hb, hr]

/-- C5: after any `MediaController.seek_to_time` call that returns a frame,
the controller's `is_playing` flag is false, for every play state held
before the call. -/
theorem seek_success_not_playing (st : MCState) (t : ℚ) (postSeek : List FrameItem)
    (fuel : Nat) (arr : Rgb) (p : ℚ)
    (hres : (st.seek_to_time t postSeek fuel).2.2 = some (arr, p)) :
    (st.seek_to_time t postSeek fuel).1.is_playing = false := by
  rcases hb : st.backend with _ | b
  · simp [MCState.seek_to_time, hb] at hres
  · rcases hr : (b.seek_to_time (max 0 t) postSeek fuel).2 with _ | ⟨arr2, p2⟩
    · simp [MCState.seek_to_time, hb, hr] at hres
    · simp [MCState.seek_to_time, hb, hr, MCState.publish_frame]

/-- C5 witness: a concrete seek that returns the frame at pts 1 leaves the
previously-playing controller paused. -/
theorem seek_success_not_playing_w :
    (st0.seek_to_time 0 [FrameItem.frame goodImg (some 1)] 1).1.is_playing = false :=
  seek_success_not_playing st0 0 [FrameItem.frame goodImg (some 1)] 1
    [[10, 20, 30]] 1 (by decide)

/-- C3: when `seek_to_time` times out (returns no result), the controller's
`pts_s` and `is_playing` keep their pre-call values, and the decode
thread's state is left resumed when it was playing before the seek and
paused otherwise (`paused = playerPaused = not wasPlaying`), for every
prior play state. -/
theorem seek_timeout_restores_state (st : MCState) (b : Backend) (t : ℚ)
    (postSeek : List FrameItem) (fuel : Nat)
    (hb : st.backend = some b)
    (hnone : (st.seek_to_time t postSeek fuel).2.2 = none) :
    (st.seek_to_time t postSeek fuel).1.pts_s = st.pts_s ∧
    (st.seek_to_time t postSeek fuel).1.is_playing = st.is_playing ∧
    ∃ b2, (st.seek_to_time t postSeek fuel).1.backend = some b2 ∧
      b2.running = b.running ∧
      b2.paused = !(b.running && !b.paused) ∧
      b2.playerPaused = !(b.running && !b.paused) := by
  rcases hr : (b.seek_to_time (max 0 t) postSeek fuel).2 with _ | ⟨arr, p⟩
  · have h1 : (st.seek_to_time t postSeek fuel).1 =
        { st with backend := some (b.seek_to_time (max 0 t) postSeek fuel).1 } := by
      simp [MCState.seek_to_time, hb, hr]
    rw [h1, seek_to_time_fst]
    exact ⟨rfl, rfl, _, rfl, rfl, rfl, rfl⟩
  · simp [MCState.seek_to_time, hb, hr, MCState.publish_frame] at hnone

/-- C3 witness: a zero-fuel seek on an idle backend returns no result and
leaves the controller's canonical fields and the pause gate as stated. -/
theorem seek_timeout_restores_state_w :
    (st0.seek_to_time 2 [] 0).1.pts_s = st0.pts_s ∧
    (st0.seek_to_time 2 [] 0).1.is_playing = st0.is_playing ∧
    ∃ b2, (st0.seek_to_time 2 [] 0).1.backend = some b2 ∧
      b2.running = b0.running ∧
      b2.paused = !(b0.running && !b0.paused) ∧
      b2.playerPaused = !(b0.running && !b0.paused) :=
  seek_timeout_restores_state st0 b0 2 [] 0 (by decide) (by decide)

/-- C10: a failed `open` (backend construction raises) leaves the previous
backend closed and dropped, keeps every canonical model field at its
pre-call value, and emits no event. -/
theorem open_failure_atomic (st : MCState) (env : OpenEnv) (posterFuel : Nat)
    (hfail : env.playerOk = false) :
    (st.openMedia env posterFuel).1.backend = none ∧
    (st.openMedia env posterFuel).1.pts_s = st.pts_s ∧
    (st.openMedia env posterFuel).1.duration_s = st.duration_s ∧
    (st.openMedia env posterFuel).1.duration_known = st.duration_known ∧
    (st.openMedia env posterFuel).1.fps_est = st.fps_est ∧
    (st.openMedia env posterFuel).1.is_playing = st.is_playing ∧
    (st.openMedia env posterFuel).2.1 = [] ∧
    (st.openMedia env posterFuel).2.2 = false := by
  simp [MCState.openMedia, mkBackend, hfail]

/-- C10 witness: a failing construction over the playing controller `st0`
keeps all of its canonical fields and emits nothing. -/
theorem open_failure_atomic_w :
    (st0.openMedia envFail 3).1.backend = none ∧
    (st0.openMedia envFail 3).1.pts_s = st0.pts_s ∧
    (st0.openMedia envFail 3).1.duration_s = st0.duration_s ∧
    (st0.openMedia envFail 3).1.duration_known = st0.duration_known ∧
    (st0.openMedia envFail 3).1.fps_est = st0.fps_est ∧
    (st0.openMedia envFail 3).1.is_playing = st0.is_playing ∧
    (st0.openMedia envFail 3).2.1 = [] ∧
    (st0.openMedia envFail 3).2.2 = false :=
  open_failure_atomic st0 envFail 3 (by decide)

/-- C7: the fps estimate starts at 24 on a successful open; on each frame
event it becomes `0.9·fps + 0.1·(1/max(1e-6, ptsNew - ptsOld))` with
`ptsOld` the previously recorded `pts_s`, which is only then overwritten
with `max 0 ptsNew`; and no other frame-publishing path (`_publish_frame`
itself, preview, seek) touches `fps_est`. -/
theorem fps_ema_contract (st st2 : MCState) (rgb : Rgb) (pts t : ℚ)
    (env : OpenEnv) (posterFuel fuel : Nat) (postSeek : List FrameItem)
    (fetched : Option Rgb) (hok : env.playerOk = true) :
    (st.on_backend_frame rgb pts).1.fps_est =
      9 / 10 * st.fps_est + 1 / 10 * (1 / max (1 / 1000000) (pts - st.pts_s)) ∧
    (st.on_backend_frame rgb pts).1.pts_s = max 0 pts ∧
    (st2.openMedia env posterFuel).1.fps_est = 24 ∧
    (st.publish_frame rgb pts).1.fps_est = st.fps_est ∧
    (st.preview_frame_at t fetched).1.fps_est = st.fps_est ∧
    (st.seek_to_time t postSeek fuel).1.fps_est = st.fps_est := by
  refine ⟨?_, rfl, ?_, rfl, ?_, ?_⟩
  · show (1 - emaAlpha) * st.fps_est + emaAlpha * _ = _
    norm_num [emaAlpha]
  · exact (openMedia_model_reset st2 env posterFuel _ (mkBackend_ok env hok)).1
  · rcases hb : st.backend with _ | b
    · simp [MCState.preview_frame_at, hb]
    · rcases hr : (b.get_preview_frame_at (max 0 t) fetched).2 with _ | rgb2 <;>
        simp [MCState.preview_frame_at, hb, hr]
  · rcases hb : st.backend with _ | b
    · simp [MCState.seek_to_time, hb]
    · rcases hr : (b.seek_to_time (max 0 t) postSeek fuel).2 with _ | ⟨arr, p⟩ <;>
        simp [MCState.seek_to_time, hb, hr, MCState.publish_frame]

/-- C7 witness: the open part at the concrete successful environment. -/
theorem fps_ema_contract_w :
    (st0.openMedia envOk 1).1.fps_est = 24 :=
  (fps_ema_contract st0 st0 [] 0 0 envOk 1 0 [] none (by decide)).2.2.1

/-- C1: the engine's synchronous `read_one_frame` (modelled from the spec;
see its doc comment) does not start the background decode loop, and
`MediaController.open` uses it so that every successfully opened source
with at least one decodable frame within the timeout gets a poster frame
published before the first `play()` — the open call itself already emits
the `frameReady` event while `is_playing` is still false and the decode
loop is not running. -/
theorem open_poster_before_play (st : MCState) (env : OpenEnv) (pf : Nat)
    (b : Backend) (arr : Rgb) (p : ℚ)
    (hmk : mkBackend env = some b)
    (hposter : (b.read_one_frame pf).2 = some (arr, p)) :
    Ev.frameReady arr (max 0 p) ∈ (st.openMedia env pf).2.1 ∧
    (st.openMedia env pf).1.is_playing = false ∧
    (∃ b2, (st.openMedia env pf).1.backend = some b2 ∧ b2.running = false) ∧
    (b.read_one_frame pf).1.running = b.running := by
  have hb := mkBackend_some env b hmk
  have hrun : b.running = false := by rw [hb]
  refine ⟨?_, (openMedia_model_reset st env pf b hmk).2.1, ?_, rfl⟩
  · simp only [MCState.openMedia, hmk]
    rcases hd : b.duration with _ | d
    · simp [hd, hposter, MCState.publish_frame]
    · by_cases h0 : 0 < d <;> simp [hd, h0, hposter, MCState.publish_frame]
  · refine ⟨(b.read_one_frame pf).1, ?_, hrun⟩
    simp only [MCState.openMedia, hmk]
    rcases hd : b.duration with _ | d
    · simp [hd, hposter, MCState.publish_frame]
    · by_cases h0 : 0 < d <;> simp [hd, h0, hposter, MCState.publish_frame]

/-- C1 witness: opening over the concrete environment `envOk` publishes the
poster frame read from the single decodable frame at pts 0. -/
theorem open_poster_before_play_w :
    Ev.frameReady [[10, 20, 30]] (max 0 0) ∈ (st0.openMedia envOk 1).2.1 :=
  (open_poster_before_play st0 envOk 1 bFresh [[10, 20, 30]] 0
    (by decide) (by decide)).1

/-- C6: when the primary decoder reports no duration metadata, the OpenCV
probe result is accepted only if the probed frame count and fps are
positive and `frames / fps` lies strictly inside `(0, 86400)`; in every
other case the controller's duration stays `known = false` with
`duration_s = 0`. -/
theorem duration_probe_gate (st : MCState) (env : OpenEnv) (pf : Nat)
    (hok : env.playerOk = true) (hmd : env.mdDuration = none) :
    ((st.openMedia env pf).1.duration_known = true →
      0 < env.capFrames ∧ 0 < env.capFps ∧
      0 < env.capFrames / env.capFps ∧ env.capFrames / env.capFps < 86400) ∧
    (¬(0 < env.capFrames ∧ 0 < env.capFps ∧
        0 < env.capFrames / env.capFps ∧ env.capFrames / env.capFps < 86400) →
      (st.openMedia env pf).1.duration_known = false ∧
      (st.openMedia env pf).1.duration_s = 0) := by
  have hmk := mkBackend_ok env hok
  have hfields := openMedia_duration_fields st env pf _ hmk
  have hdur :
      initialDuration env =
        match probe_duration_via_opencv env.capOpened env.capFrames env.capFps with
        | some probed =>
          if 0 < probed ∧ probed < 24 * 60 * 60 then some probed else none
        | none => none := by
    simp [initialDuration, hmd]
  rcases hpr : probe_duration_via_opencv env.capOpened env.capFrames env.capFps
    with _ | probed
  · rw [hpr] at hdur
    simp only [hdur] at hfields
    have hkn := congrArg Prod.fst hfields
    have hds := congrArg Prod.snd hfields
    simp at hkn hds
    exact ⟨fun h => absurd h (by simp [hkn]), fun _ => ⟨hkn, hds⟩⟩
  · have hcond : env.capFps ≠ 0 ∧ 0 < env.capFps ∧
        env.capFrames ≠ 0 ∧ 0 < env.capFrames := by
      by_contra hc
      simp only [probe_duration_via_opencv] at hpr
      rcases hop : env.capOpened with _ | _
      · simp [hop] at hpr
      · simp [hop, hc] at hpr
    have hval : probed = env.capFrames / env.capFps := by
      simp only [probe_duration_via_opencv] at hpr
      rcases hop : env.capOpened with _ | _
      · simp [hop] at hpr
      · simp [hop, hcond] at hpr
        exact hpr.symm
    rw [hpr] at hdur
    by_cases hrange : 0 < probed ∧ probed < 24 * 60 * 60
    · have hconds : 0 < env.capFrames ∧ 0 < env.capFps ∧
          0 < env.capFrames / env.capFps ∧ env.capFrames / env.capFps < 86400 := by
        refine ⟨hcond.2.2.2, hcond.2.1, ?_, ?_⟩
        · rw [← hval]; exact hrange.1
        · rw [← hval]
          calc probed < 24 * 60 * 60 := hrange.2
            _ = 86400 := by norm_num
      refine ⟨fun _ => hconds, fun hnc => absurd hconds hnc⟩
    · simp only [hrange, if_false, hdur] at hfields
      have hkn := congrArg Prod.fst hfields
      have hds := congrArg Prod.snd hfields
      simp at hkn hds
      exact ⟨fun h => absurd h (by simp [hkn]), fun _ => ⟨hkn, hds⟩⟩

/-- C6 witness: metadata absent and the probe reporting zero frames leaves
the duration unknown. -/
theorem duration_probe_gate_w :
    (st0.openMedia envOk 1).1.duration_known = false ∧
    (st0.openMedia envOk 1).1.duration_s = 0 :=
  (duration_probe_gate st0 envOk 1 (by decide) (by decide)).2 (by decide)

/-- When the stream delivers a frame at or after the target within the
fuel budget (before end of stream), the pull loop stops at the first such
frame and keeps it, whatever fallback was accumulated so far. -/
lemma hasFrame_seekPull (target : ℚ) :
    ∀ (fuel : Nat) (s : List FrameItem) (acc : Option (Img × ℚ)),
      hasFrameAtOrAfter target fuel s = true →
      ∃ img p, (seekPull target fuel s acc).1 = some (img, p) ∧ target ≤ p := by
  intro fuel
  induction fuel with
  | zero =>
    intro s acc h
    simp [hasFrameAtOrAfter] at h
  | succ n ih =>
    intro s acc h
    match s with
    | [] => simp [hasFrameAtOrAfter] at h
    | FrameItem.eof :: rest => simp [hasFrameAtOrAfter] at h
    | FrameItem.noFrame :: rest =>
      simp only [hasFrameAtOrAfter] at h
      simp only [seekPull]
      exact ih rest acc h
    | FrameItem.frame img none :: rest =>
      simp only [hasFrameAtOrAfter] at h
      simp only [seekPull]
      exact ih rest acc h
    | FrameItem.frame img (some p) :: rest =>
      by_cases hp : target ≤ p
      · exact ⟨img, p, by simp [seekPull, hp], hp⟩
      · simp only [hasFrameAtOrAfter, if_neg hp] at h
        simp only [seekPull, if_neg hp]
        exact ih rest _ h

/-- C2 counterexample: the claim as stated is false.  With the target 0 and
a stream whose single frame has pts 0 but a malformed (empty) byte plane,
the source does yield a frame at or after the target within the timeout
(first conjunct) and the loop does observe and keep it (second conjunct),
yet `seek_to_time` returns no result (third conjunct) because the numpy
conversion of the kept frame fails. -/
theorem seek_contract_cex :
    hasFrameAtOrAfter (max 0 (0 : ℚ)) 1 [FrameItem.frame badImg (some 0)] = true ∧
    (seekPull (max 0 (0 : ℚ)) 1 [FrameItem.frame badImg (some 0)] none).1 =
      some (badImg, 0) ∧
    (b0.seek_to_time 0 [FrameItem.frame badImg (some 0)] 1).2 = none :=
  ⟨by decide, by decide, by decide⟩

/-- C2 (amended): `seek_to_time` keeps exactly the frame the bounded pull
loop selects — the first frame with pts at or past the target when the
source yields one within the timeout (conjunct 1), the last frame observed
otherwise — and returns that frame if and only if its buffer converts
(conjunct 2, via `Option.map`); it returns no result when no frame at all
was observed (conjunct 3) or when the selected frame's buffer is
malformed. -/
theorem seek_contract (b : Backend) (seconds : ℚ) (postSeek : List FrameItem)
    (fuel : Nat) :
    (hasFrameAtOrAfter (max 0 seconds) fuel postSeek = true →
      ∃ img p, (seekPull (max 0 seconds) fuel postSeek none).1 = some (img, p) ∧
        max 0 seconds ≤ p) ∧
    (∀ img p, (seekPull (max 0 seconds) fuel postSeek none).1 = some (img, p) →
      (b.seek_to_time seconds postSeek fuel).2 =
        (img_to_numpy img).map (fun arr => (arr, p))) ∧
    ((seekPull (max 0 seconds) fuel postSeek none).1 = none →
      (b.seek_to_time seconds postSeek fuel).2 = none) := by
  refine ⟨hasFrame_seekPull (max 0 seconds) fuel postSeek none, ?_, ?_⟩
  · intro img p hp
    unfold Backend.seek_to_time
    rcases hi : img_to_numpy img with _ | arr <;> simp [hp, hi]
  · intro hp
    unfold Backend.seek_to_time
    simp [hp]

/-- C2 witness: with a single well-formed frame at pts 2 and target 0, the
loop keeps that frame and the seek returns its conversion. -/
theorem seek_contract_w :
    (b0.seek_to_time 0 [FrameItem.frame goodImg (some 2)] 1).2 =
      (img_to_numpy goodImg).map (fun arr => (arr, 2)) :=
  (seek_contract b0 0 [FrameItem.frame goodImg (some 2)] 1).2.1 goodImg 2 (by decide)

/-- A pause call never touches the pending stream. -/
lemma pause_stream (b : Backend) : b.pause.stream = b.stream := by
  unfold Backend.pause
  split <;> rfl

/-- A resume call never touches the pending stream. -/
lemma resume_stream (b : Backend) : b.resume.stream = b.stream := by
  unfold Backend.resume
  split <;> rfl

/-- One decode-loop iteration: what it emits, followed by the PTS content
of its remaining stream, is a sublist of the PTS content it started with. -/
lemma loopIter_sublist (b : Backend) :
    (b.loopIter.2.1.toList ++ streamPts b.loopIter.1.stream).Sublist
      (streamPts b.stream) := by
  unfold Backend.loopIter
  by_cases hex : b.exited
  · simp [hex]
  · by_cases hrun : b.running = false
    · simp [hex, hrun]
    · by_cases hpau : b.paused
      · simp [hex, hrun, hpau]
      · simp only [hex, hrun, hpau, Bool.false_eq_true, if_false, if_true,
          Bool.not_eq_true]
        match hstream : b.stream with
        | [] => simp [streamPts]
        | FrameItem.eof :: rest => simp [streamPts]
        | FrameItem.noFrame :: rest => simp [streamPts]
        | FrameItem.frame img pts :: rest =>
          rcases hi : img_to_numpy img with _ | arr
          · simp only [hi, streamPts, Option.toList, List.nil_append]
            exact List.sublist_cons_self _ _
          · simp [hi, streamPts]

/-- Over any interleaving of loop iterations with pause/resume calls, the
emitted PTS values form a sublist of the stream's PTS content. -/
lemma runTrace_sublist :
    ∀ (acts : List Act) (b : Backend),
      ((runTrace b acts).2).Sublist (streamPts b.stream) := by
  intro acts
  induction acts with
  | nil =>
    intro b
    simp [runTrace]
  | cons a rest ih =>
    intro b
    cases a with
    | pause =>
      simp only [runTrace]
      have h := ih b.pause
      rwa [pause_stream] at h
    | resume =>
      simp only [runTrace]
      have h := ih b.resume
      rwa [resume_stream] at h
    | tick =>
      simp only [runTrace]
      exact (List.Sublist.append (List.Sublist.refl b.loopIter.2.1.toList)
        (ih b.loopIter.1)).trans (loopIter_sublist b)

/-- C4: for every interleaving of decode-loop iterations with `pause()` and
`resume()` calls and no intervening seek, if the source stream delivers
its frames in non-decreasing PTS order, then the PTS values emitted by the
decode loop's `frame_ready` events are monotonically non-decreasing — in
particular the first frame emitted after a resume is not earlier than the
last one emitted before the pause (pause and resume never touch the stream
position). -/
theorem pause_resume_monotone (b : Backend) (acts : List Act)
    (hmono : List.Pairwise (· ≤ ·) (streamPts b.stream)) :
    List.Pairwise (· ≤ ·) (runTrace b acts).2 :=
  hmono.sublist (runTrace_sublist acts b)

/-- C4 witness: a running backend over a monotone two-frame stream, ticked,
paused, resumed and ticked again, emits non-decreasing PTS values. -/
theorem pause_resume_monotone_w :
    List.Pairwise (· ≤ ·)
      (runTrace bRun [Act.tick, Act.pause, Act.resume, Act.tick]).2 :=
  pause_resume_monotone bRun [Act.tick, Act.pause, Act.resume, Act.tick] (by decide)

end Crittr
